import Mathlib

/-!
Shallow embedding of the Event-Go-BJ ticketing backend (Django), restricted to
the parts the specification's claims are about: the ticket inventory, the
purchase lifecycle with its persistence hook (`Purchase.save`), QR credential
issuance and validation, and the refund workflow.

Conventions of the embedding:
* Django `DateTimeField` values are modelled as `Int` timestamps in seconds;
  `date()` is the flooring division by 86400.
* `DecimalField` money values are exact fixed-point decimals with 2 fractional
  digits; they are modelled as `Int` amounts of cents (Python `Decimal`
  arithmetic on such values is exact, no rounding occurs for products with
  integers within the configured precision).
* The random `uuid` used by `generate_purchase_reference` is modelled as a
  deterministic function of the (unique) purchase id: only uniqueness of the
  reference matters to the claims.
* ORM rows live in Lean lists; `Purchase.save` is a function on a database
  state holding one ticket type and its purchases (plus validation records),
  mirroring `tickets/models.py`.
-/

namespace EventGo

/-- Purchase status, from `Purchase.STATUS_CHOICES` in `tickets/models.py`. -/
inductive PurchaseStatus
  | pending
  | paid
  | cancelled
  | refunded
deriving DecidableEq, Repr

/-- Event, from `events/models.py` (only the fields the ticket logic reads). -/
structure Event where
  id : Nat
  title : String
  start_datetime : Int
  end_datetime : Int
deriving DecidableEq, Repr

/-- Ticket type, from `tickets/models.py` class `Ticket`. -/
structure Ticket where
  name : String
  price : Int
  quantity_available : Int
  quantity_sold : Int
  is_active : Bool
  sale_start_datetime : Option Int
  sale_end_datetime : Option Int
  event : Event
deriving DecidableEq, Repr

/-- `Ticket.quantity_remaining`: `max(0, self.quantity_available - self.quantity_sold)`. -/
def Ticket.quantity_remaining (t : Ticket) : Int :=
  max 0 (t.quantity_available - t.quantity_sold)

/-- `Ticket.is_sold_out`: `self.quantity_remaining == 0`. -/
def Ticket.is_sold_out (t : Ticket) : Bool :=
  t.quantity_remaining == 0

/-- `Ticket.is_available_for_sale`: not active or sold out fails; `now` strictly
before a set `sale_start_datetime` fails; `now` strictly after a set
`sale_end_datetime` fails; otherwise available. -/
def Ticket.is_available_for_sale (t : Ticket) (now : Int) : Bool :=
  if !t.is_active || t.is_sold_out then
    false
  else if (match t.sale_start_datetime with
           | some s => decide (now < s)
           | none => false) then
    false
  else if (match t.sale_end_datetime with
           | some e => decide (e < now)
           | none => false) then
    false
  else
    true

/-- `Ticket.can_purchase(quantity)`: available for sale, `quantity <=
quantity_remaining` and `quantity > 0`. -/
def Ticket.can_purchase (t : Ticket) (quantity : Int) (now : Int) : Bool :=
  t.is_available_for_sale now &&
  decide (quantity ≤ t.quantity_remaining) &&
  decide (0 < quantity)

/-- Modelled from the spec (§4.1), for comparison with `Ticket.can_purchase`:
`is_purchasable(ticket, quantity, now)` is true iff the ticket is active,
`quantity` is in `(0, remaining]`, and `now` lies in the HALF-OPEN window
`[sale_start, sale_end)` for whichever bounds are set. -/
def is_purchasable_spec (t : Ticket) (quantity : Int) (now : Int) : Bool :=
  t.is_active &&
  decide (0 < quantity) &&
  decide (quantity ≤ t.quantity_remaining) &&
  (match t.sale_start_datetime with
   | some s => decide (s ≤ now)
   | none => true) &&
  (match t.sale_end_datetime with
   | some e => decide (now < e)
   | none => true)

/-- QR payload stored in `qr_code_data` by `Purchase.generate_qr_code`
(a JSON object; modelled as a record of its fields). -/
structure QRPayload where
  purchase_id : Nat
  reference : String
  event_id : Nat
  event_title : String
  ticket_name : String
  quantity : Int
  user_email : String
  purchase_date : Option Int
deriving DecidableEq, Repr

/-- Purchase, from `tickets/models.py` class `Purchase`. The `qr_code` image
field is modelled by its truthiness (whether an image file is attached); the
`qr_code_data` text field holds the decoded payload when non-empty. -/
structure Purchase where
  id : Nat
  quantity : Int
  unit_price : Int
  total_amount : Int
  status : PurchaseStatus
  qr_code : Bool
  qr_code_data : Option QRPayload
  purchase_reference : String
  payment_method : String
  payment_reference : String
  user_email : String
  created_at : Option Int
  paid_at : Option Int
deriving DecidableEq, Repr

/-- `Purchase.generate_purchase_reference`: `EVT-` followed by 8 random hex
characters; randomness is modelled by the unique purchase id. -/
def Purchase.generate_purchase_reference (p : Purchase) : String :=
  "EVT-" ++ toString p.id

/-- `Purchase.generate_qr_code`: stores the JSON payload in `qr_code_data` and
attaches the rendered QR image to `qr_code`. -/
def Purchase.generate_qr_code (p : Purchase) (t : Ticket) : Purchase :=
  { p with
    qr_code_data := some
      { purchase_id := p.id
        reference := p.purchase_reference
        event_id := t.event.id
        event_title := t.event.title
        ticket_name := t.name
        quantity := p.quantity
        user_email := p.user_email
        purchase_date := p.created_at }
    qr_code := true }

/-- Field updates performed by `Purchase.save` before the row is persisted:
assign the reference if missing, recompute `total_amount`, generate the QR
code when the status is `paid` and no image exists yet, and stamp `paid_at`. -/
def Purchase.saveFields (t : Ticket) (now : Int) (p : Purchase) : Purchase :=
  let p1 := if p.purchase_reference = "" then
              { p with purchase_reference := p.generate_purchase_reference }
            else p
  let p2 := { p1 with total_amount := p1.unit_price * p1.quantity }
  let p3 := if p2.status == .paid && !p2.qr_code then p2.generate_qr_code t else p2
  let p4 := if p3.status == .paid && p3.paid_at == none then
              { p3 with paid_at := some now }
            else p3
  p4

/-- Validation record, from `tickets/models.py` class `TicketValidation`
(append-only; references its purchase by id). -/
structure TicketValidation where
  purchase_id : Nat
  validated_by : Nat
  validation_datetime : Int
  location : String
  notes : String
deriving DecidableEq, Repr

/-- Database state for one ticket type: the `Ticket` row, its `Purchase` rows
and the `TicketValidation` rows. -/
structure DBState where
  ticket : Ticket
  purchases : List Purchase
  validations : List TicketValidation
deriving DecidableEq, Repr

/-- Sum of `quantity` over the purchases with status `paid` (the aggregate
`Sum('quantity')` of `Purchase.update_ticket_quantity`, `or 0` when empty). -/
def paidQuantityTotal (ps : List Purchase) : Int :=
  ((ps.filter (fun p => p.status == .paid)).map (fun p => p.quantity)).sum

/-- `Purchase.update_ticket_quantity`: recompute `ticket.quantity_sold` as the
sum of quantities of this ticket's paid purchases and persist it. -/
def DBState.update_ticket_quantity (s : DBState) : DBState :=
  { s with ticket := { s.ticket with quantity_sold := paidQuantityTotal s.purchases } }

/-- `Purchase.save` on the purchase at index `i`: apply the pre-save field
updates, persist the row, then run `update_ticket_quantity`. -/
def DBState.save (s : DBState) (i : Nat) (now : Int) : DBState :=
  match s.purchases[i]? with
  | none => s
  | some p =>
    ({ s with purchases := s.purchases.set i (p.saveFields s.ticket now) }).update_ticket_quantity

/-- `Purchase.can_be_cancelled` for the purchase at index `i`: only `pending`
or `paid` purchases whose event has not yet started can be cancelled. The
code consults nothing else (in particular, no `TicketValidation` rows). -/
def DBState.can_be_cancelled (s : DBState) (i : Nat) (now : Int) : Bool :=
  match s.purchases[i]? with
  | none => false
  | some p =>
    if p.status != .pending && p.status != .paid then
      false
    else if decide (s.ticket.event.start_datetime ≤ now) then
      false
    else
      true

/-- `Purchase.cancel`: raise `ValueError` unless `can_be_cancelled`; otherwise
set the status to `cancelled` and save. -/
def DBState.cancel (s : DBState) (i : Nat) (now : Int) : Except String DBState :=
  if s.can_be_cancelled i now then
    match s.purchases[i]? with
    | none => .error "Purchase cannot be cancelled"
    | some p =>
      .ok (({ s with purchases := s.purchases.set i { p with status := .cancelled } }).save i now)
  else
    .error "Purchase cannot be cancelled"

/-- Fresh unsaved `Purchase` row as built by `PurchaseCreateSerializer.create`
in the purchase view: the serializer computes `total_amount`, and the model
defaults give status `pending` with empty QR, reference and payment fields. -/
def newPurchase (id : Nat) (quantity unit_price : Int) (payment_method user_email : String)
    (now : Int) : Purchase :=
  { id := id
    quantity := quantity
    unit_price := unit_price
    total_amount := unit_price * quantity
    status := .pending
    qr_code := false
    qr_code_data := none
    purchase_reference := ""
    payment_method := payment_method
    payment_reference := ""
    user_email := user_email
    created_at := some now
    paid_at := none }

/-- Purchase-lifecycle operations, as performed by the views and the webhook
handler in `tickets/views.py` (each one ends in a `Purchase.save` call):
creation of a pending purchase, successful payment capture (status `paid`),
failed payment capture (status `cancelled`) and user cancellation. -/
inductive Op
  | createPending (id : Nat) (quantity : Int) (payment_method user_email : String) (now : Int)
  | confirmPayment (i : Nat) (payment_reference : String) (now : Int)
  | failPayment (i : Nat) (now : Int)
  | cancelOp (i : Nat) (now : Int)
deriving DecidableEq, Repr

/-- Apply one lifecycle operation to the database state. An operation whose
guard fails (a missing row, or a `cancel` refused by `can_be_cancelled`)
leaves the state unchanged, mirroring the view returning an error response. -/
def DBState.applyOp (s : DBState) : Op → DBState
  | .createPending id quantity payment_method user_email now =>
    let s1 := { s with
      purchases := s.purchases ++ [newPurchase id quantity s.ticket.price payment_method user_email now] }
    s1.save s.purchases.length now
  | .confirmPayment i payment_reference now =>
    match s.purchases[i]? with
    | none => s
    | some p =>
      ({ s with purchases :=
          s.purchases.set i { p with status := .paid, payment_reference := payment_reference } }).save i now
  | .failPayment i now =>
    match s.purchases[i]? with
    | none => s
    | some p =>
      ({ s with purchases := s.purchases.set i { p with status := .cancelled } }).save i now
  | .cancelOp i now =>
    match s.cancel i now with
    | .ok s1 => s1
    | .error _ => s

/-- Run a sequence of lifecycle operations. -/
def DBState.run (s : DBState) (ops : List Op) : DBState :=
  ops.foldl DBState.applyOp s

/-- Initial database state: a freshly created ticket type with no purchases
and no validations (`quantity_sold` starts at its default 0). -/
def initState (t : Ticket) : DBState :=
  { ticket := { t with quantity_sold := 0 }, purchases := [], validations := [] }

/-- Calendar day of a timestamp (`datetime.date()`), flooring by 86400 s. -/
def dateOf (ts : Int) : Int :=
  Int.fdiv ts 86400

/-- Outcome of `TicketValidationViewSet.validate_qr`, one constructor per
response branch of the view. -/
inductive QRValidationOutcome
  | invalidFormat
  | purchaseNotFound
  | notValidForEntry (st : PurchaseStatus)
  | eventEnded
  | eventNotYetOpen
  | alreadyValidated (prior : TicketValidation)
  | validated (v : TicketValidation)
deriving DecidableEq, Repr

/-- `TicketValidationViewSet.validate_qr`: parse the payload (a parse failure
or missing purchase id is modelled by `none`), resolve the purchase, check it
is `paid`, check the event has not ended (`event.end_datetime < now`) and has
started date-wise (`event.start_datetime.date() > now.date()` refuses), then
look for a validation of the same purchase within the last hour: if one
exists return it as a warning and record nothing, otherwise append exactly
one new `TicketValidation`. Returns the outcome and the updated state. -/
def DBState.validate_qr (s : DBState) (payload : Option QRPayload) (validated_by : Nat)
    (location notes : String) (now : Int) : QRValidationOutcome × DBState :=
  match payload with
  | none => (.invalidFormat, s)
  | some qd =>
    match s.purchases.find? (fun p => p.id == qd.purchase_id) with
    | none => (.purchaseNotFound, s)
    | some p =>
      if p.status != .paid then
        (.notValidForEntry p.status, s)
      else if decide (s.ticket.event.end_datetime < now) then
        (.eventEnded, s)
      else if decide (dateOf now < dateOf s.ticket.event.start_datetime) then
        (.eventNotYetOpen, s)
      else
        match s.validations.find?
            (fun v => v.purchase_id == p.id && decide (now - 3600 ≤ v.validation_datetime)) with
        | some prior => (.alreadyValidated prior, s)
        | none =>
          let v : TicketValidation :=
            { purchase_id := p.id
              validated_by := validated_by
              validation_datetime := now
              location := location
              notes := notes }
          (.validated v, { s with validations := s.validations ++ [v] })

/-- Payment status, from `Payment.STATUS_CHOICES` in `payments/models.py`. -/
inductive PaymentStatus
  | pending
  | processing
  | success
  | failed
  | cancelled
  | refunded
deriving DecidableEq, Repr

/-- Payment row, from `payments/models.py` class `Payment` (the fields the
refund workflow reads). The payment-method field of the `Payment` model is
named `method`; the model has no field called `payment_method`. -/
structure PaymentRec where
  amount : Int
  status : PaymentStatus
  method : String
deriving DecidableEq, Repr

/-- `Payment.can_be_refunded`: the payment status is `success`. -/
def PaymentRec.can_be_refunded (pay : PaymentRec) : Bool :=
  pay.status == .success

/-- Refund-request status, from `RefundRequest.STATUS_CHOICES`. -/
inductive RefundRequestStatus
  | pending
  | approved
  | rejected
  | processing
  | completed
  | failed
deriving DecidableEq, Repr

/-- Refund request row, from `payments/models.py` class `RefundRequest`. -/
structure RefundRequest where
  amount : Int
  reason : String
  status : RefundRequestStatus
  admin_notes : String
  refund_reference : String
  processed_amount : Option Int
  processed_at : Option Int
deriving DecidableEq, Repr

/-- Executed-refund status, from `Refund.STATUS_CHOICES`. -/
inductive RefundExecStatus
  | pending
  | processing
  | completed
  | failed
deriving DecidableEq, Repr

/-- Executed refund row, from `payments/models.py` class `Refund`. -/
structure RefundExec where
  amount : Int
  refund_reference : String
  refund_method : String
  status : RefundExecStatus
  processed_at : Option Int
deriving DecidableEq, Repr

/-- Database state around one `Payment`: the payment row, the purchase it
paid for, the payment's refund requests and its executed refunds. -/
structure PaymentState where
  payment : PaymentRec
  purchase : Purchase
  requests : List RefundRequest
  refunds : List RefundExec
deriving DecidableEq, Repr

/-- `RefundRequest.can_be_approved`: the request is `pending` and its payment
can be refunded. -/
def can_be_approved (r : RefundRequest) (pay : PaymentRec) : Bool :=
  r.status == .pending && pay.can_be_refunded

/-- A request counts as outstanding for the duplicate check when its status is
`pending`, `approved` or `processing` (`RefundRequestCreateSerializer.validate`). -/
def RefundRequest.isOutstanding (r : RefundRequest) : Bool :=
  r.status == .pending || r.status == .approved || r.status == .processing

/-- Failure kinds of refund-request creation; one constructor per distinct
`ValidationError` raised by `RefundRequestCreateSerializer`. -/
inductive RefundCreateError
  | invalidAmount
  | notRefundable
  | amountExceedsPayment
  | duplicateRequest
deriving DecidableEq, Repr

/-- Validation performed before a refund request is created
(`RefundRequestCreateSerializer`): the field validator rejects a non-positive
amount, then `validate` rejects a non-refundable payment, an amount above the
payment's amount, and an existing outstanding request, in that order. -/
def refund_request_validate (s : PaymentState) (amount : Int) : Option RefundCreateError :=
  if decide (amount ≤ 0) then
    some .invalidAmount
  else if !s.payment.can_be_refunded then
    some .notRefundable
  else if decide (s.payment.amount < amount) then
    some .amountExceedsPayment
  else if s.requests.any (fun r => r.isOutstanding) then
    some .duplicateRequest
  else
    none

/-- `RefundRequestViewSet.create`: run the serializer validation; on failure
no row is created and the error is reported, on success exactly one new
`pending` request is appended. -/
def refund_request_create (s : PaymentState) (amount : Int) (reason : String) :
    Except RefundCreateError PaymentState :=
  match refund_request_validate s amount with
  | some e => .error e
  | none =>
    .ok { s with requests := s.requests ++
      [{ amount := amount
         reason := reason
         status := .pending
         admin_notes := ""
         refund_reference := ""
         processed_amount := none
         processed_at := none }] }

/-- Result dictionary returned by `PaymentService.process_refund`. -/
structure RefundProcessResult where
  success : Bool
  refund_reference : String
  error_msg : String
deriving DecidableEq, Repr

/-- Attribute access `payment.payment_method`, as performed by
`PaymentService.process_refund` (services.py line 196). The `Payment` model
declares no field called `payment_method` — its payment-method field is named
`method` — so in Python this lookup raises `AttributeError`; it is modelled as
an attribute lookup that always fails. -/
def PaymentRec.payment_method_attr (_pay : PaymentRec) : Except String String :=
  .error "AttributeError: Payment object has no attribute payment_method"

/-- `PaymentService.process_refund` (services.py 170-216): the mocked gateway
draw is the parameter `gateway_success` and the generated reference is
`fresh_ref`. On a success draw the code builds a completed `Refund` row whose
`refund_method` reads `payment.payment_method`; that attribute does not exist
on `Payment`, so the `AttributeError` is caught by the surrounding `except`
and reported as a failure result — the success return and the `Refund` row
are unreachable. A failure draw reports failure directly. Returns the result
dictionary and the list of `Refund` rows actually created. -/
def process_refund (gateway_success : Bool) (fresh_ref : String) (now : Int)
    (pay : PaymentRec) (r : RefundRequest) : RefundProcessResult × List RefundExec :=
  if gateway_success then
    match pay.payment_method_attr with
    | .ok m =>
      ({ success := true, refund_reference := fresh_ref, error_msg := "" },
       [{ amount := r.amount
          refund_reference := fresh_ref
          refund_method := m
          status := .completed
          processed_at := some now }])
    | .error _ =>
      ({ success := false, refund_reference := "",
         error_msg := "Refund processing error: Payment object has no attribute payment_method" },
       [])
  else
    ({ success := false, refund_reference := "",
       error_msg := "Refund processing failed. Please try again." },
     [])

/-- `RefundRequestViewSet.review` with `action = approve` on the request at
index `i`: `RefundRequest.approve` raises unless `can_be_approved`; then the
view calls `PaymentService.process_refund` and branches on the reported
`success` flag — marking the request `completed` with `refund_reference` and
`processed_amount` when success is reported, or `failed` with the error
appended to `admin_notes` otherwise. Because `process_refund` never reports
success (see its doc), only the failure branch is reachable. Neither branch
touches the payment or the purchase. -/
def review_approve (s : PaymentState) (i : Nat) (admin_notes : String)
    (gateway_success : Bool) (fresh_ref : String) (now : Int) :
    Except String PaymentState :=
  match s.requests[i]? with
  | none => .error "Not found"
  | some r =>
    if !(can_be_approved r s.payment) then
      .error "Refund cannot be approved"
    else
      let r1 := { r with status := .approved, admin_notes := admin_notes }
      let result := process_refund gateway_success fresh_ref now s.payment r1
      if result.1.success then
        let r2 := { r1 with
          status := .completed
          refund_reference := result.1.refund_reference
          processed_amount := some r1.amount
          processed_at := some now }
        .ok { s with requests := s.requests.set i r2, refunds := s.refunds ++ result.2 }
      else
        let r2 := { r1 with
          status := .failed
          admin_notes := r1.admin_notes ++ "\nRefund processing failed: " ++ result.1.error_msg }
        .ok { s with requests := s.requests.set i r2, refunds := s.refunds ++ result.2 }

/-- Row built by `RefundRequestCreateSerializer` on success: a `pending`
request for the validated amount and reason, all other fields at defaults. -/
def newRefundRequest (amount : Int) (reason : String) : RefundRequest :=
  { amount := amount
    reason := reason
    status := .pending
    admin_notes := ""
    refund_reference := ""
    processed_amount := none
    processed_at := none }

/-- Inventory invariant of the spec (§8): the cached `quantity_sold` equals
the sum of quantities of the paid purchases, and `quantity_remaining` is
`max 0 (quantity_available - quantity_sold)`. -/
def inventoryInv (s : DBState) : Prop :=
  s.ticket.quantity_sold = paidQuantityTotal s.purchases ∧
  s.ticket.quantity_remaining = max 0 (s.ticket.quantity_available - s.ticket.quantity_sold)

/-- Guard under which a lifecycle operation actually performs a transition
(the view would otherwise have answered with an error response and left the
database untouched). -/
def opEnabled (s : DBState) : Op → Prop
  | .createPending _ _ _ _ _ => True
  | .confirmPayment i _ _ => s.purchases[i]?.isSome = true
  | .failPayment i _ => s.purchases[i]?.isSome = true
  | .cancelOp i now => s.can_be_cancelled i now = true

/-- Totals invariant: every stored purchase satisfies
`total_amount = unit_price * quantity`. -/
def totalsInv (s : DBState) : Prop :=
  ∀ p ∈ s.purchases, p.total_amount = p.unit_price * p.quantity

/-- QR invariant: a paid purchase carries the QR image, and a purchase with a
QR image carries the stored payload. -/
def qrInv (s : DBState) : Prop :=
  ∀ p ∈ s.purchases,
    (p.status = .paid → p.qr_code = true) ∧
    (p.qr_code = true → p.qr_code_data.isSome = true)

/-- Placeholder purchase used as the default of `List.getD`. -/
def defaultPurchase : Purchase := newPurchase 0 0 0 "" "" 0

/-- Concrete event used by the witnesses and counterexamples: it starts at
time 50000 and ends at 90000 (both inside calendar day 0). -/
def eventA : Event :=
  { id := 1, title := "Concert", start_datetime := 50000, end_datetime := 90000 }

/-- Concrete ticket type: 10 seats at 500 cents, active, on sale during
`[0, 40000]`. -/
def ticketA : Ticket :=
  { name := "Standard", price := 500, quantity_available := 10, quantity_sold := 0,
    is_active := true, sale_start_datetime := some 0, sale_end_datetime := some 40000,
    event := eventA }

/-- Operations creating one purchase of 2 tickets and confirming its payment. -/
def opsPaidA : List Op :=
  [.createPending 1 2 "card" "buyer@example.com" 100, .confirmPayment 0 "PAY-1" 200]

/-- State with one paid purchase of 2 tickets on `ticketA`. -/
def statePaidA : DBState := (initState ticketA).run opsPaidA

/-- The paid purchase stored in `statePaidA`. -/
def pPaidA : Purchase := statePaidA.purchases.getD 0 defaultPurchase

/-- State reached by paying for a purchase and then cancelling it before the
event starts. -/
def stateC1 : DBState := (initState ticketA).run (opsPaidA ++ [.cancelOp 0 300])

/-- The QR payload issued for the paid purchase of `statePaidA`. -/
def qdA : QRPayload :=
  { purchase_id := 1, reference := "EVT-1", event_id := 1, event_title := "Concert",
    ticket_name := "Standard", quantity := 2, user_email := "buyer@example.com",
    purchase_date := some 100 }

/-- State after the paid purchase's QR code has been validated once at the
gate (time 250). -/
def stateValA : DBState := (statePaidA.validate_qr (some qdA) 7 "gate" "" 250).2

/-- Concrete successful payment of 1000 cents. -/
def paymentA : PaymentRec :=
  { amount := 1000, status := .success, method := "card" }

/-- Concrete pending refund request over the full payment amount. -/
def requestA : RefundRequest :=
  { amount := 1000, reason := "cannot attend", status := .pending, admin_notes := "",
    refund_reference := "", processed_amount := none, processed_at := none }

/-- Payment-side state: a successful payment for the paid purchase with one
pending refund request. -/
def payStateA : PaymentState :=
  { payment := paymentA, purchase := pPaidA, requests := [requestA], refunds := [] }

theorem save_inventoryInv (s : DBState) (i : Nat) (now : Int)
    (h : s.purchases[i]?.isSome = true) : inventoryInv (s.save i now) := by
  cases hg : s.purchases[i]? with
  | none => rw [hg] at h; simp at h
  | some p =>
    constructor
    · simp [DBState.save, hg, DBState.update_ticket_quantity]
    · rfl

theorem saveFields_total_eq (t : Ticket) (now : Int) (p : Purchase) :
    (p.saveFields t now).total_amount =
      (p.saveFields t now).unit_price * (p.saveFields t now).quantity := by
  by_cases h1 : p.purchase_reference = "" <;>
  by_cases h2 : p.status = .paid <;>
  by_cases h3 : p.qr_code = true <;>
  by_cases h4 : p.paid_at = none <;>
    simp [Purchase.saveFields, Purchase.generate_qr_code, h1, h2, h3, h4]

theorem totalsInv_save (s : DBState) (i : Nat) (now : Int) (h : totalsInv s) :
    totalsInv (s.save i now) := by
  cases hg : s.purchases[i]? with
  | none => simp only [DBState.save, hg]; exact h
  | some p =>
    intro q hq
    simp only [DBState.save, hg, DBState.update_ticket_quantity] at hq
    rcases List.mem_or_eq_of_mem_set hq with hmem | rfl
    · exact h q hmem
    · exact saveFields_total_eq s.ticket now p

theorem totalsInv_applyOp (s : DBState) (op : Op) (h : totalsInv s) :
    totalsInv (s.applyOp op) := by
  cases op with
  | createPending id q pm em now =>
    apply totalsInv_save
    intro r hr
    rcases List.mem_append.mp hr with hmem | hmem
    · exact h r hmem
    · simp only [List.mem_singleton] at hmem; subst hmem; rfl
  | confirmPayment i ref now =>
    cases hg : s.purchases[i]? with
    | none => simp only [DBState.applyOp, hg]; exact h
    | some p =>
      simp only [DBState.applyOp, hg]
      apply totalsInv_save
      intro q hq
      rcases List.mem_or_eq_of_mem_set hq with hmem | rfl
      · exact h q hmem
      · simpa using h p (List.getElem?_mem hg)
  | failPayment i now =>
    cases hg : s.purchases[i]? with
    | none => simp only [DBState.applyOp, hg]; exact h
    | some p =>
      simp only [DBState.applyOp, hg]
      apply totalsInv_save
      intro q hq
      rcases List.mem_or_eq_of_mem_set hq with hmem | rfl
      · exact h q hmem
      · simpa using h p (List.getElem?_mem hg)
  | cancelOp i now =>
    simp only [DBState.applyOp]
    cases hc : s.cancel i now with
    | error e => exact h
    | ok s1 =>
      simp only [DBState.cancel] at hc
      by_cases hcan : s.can_be_cancelled i now = true
      · rw [if_pos hcan] at hc
        cases hg : s.purchases[i]? with
        | none => rw [hg] at hc; cases hc
        | some p =>
          rw [hg] at hc
          injection hc with hc
          subst hc
          apply totalsInv_save
          intro q hq
          rcases List.mem_or_eq_of_mem_set hq with hmem | rfl
          · exact h q hmem
          · simpa using h p (List.getElem?_mem hg)
      · rw [if_neg hcan] at hc; cases hc

theorem totalsInv_runAux (ops : List Op) : ∀ s, totalsInv s → totalsInv (s.run ops) := by
  induction ops with
  | nil => exact fun s hs => hs
  | cons op rest ih =>
    intro s hs
    exact ih _ (totalsInv_applyOp s op hs)

theorem totalsInv_run (t : Ticket) (ops : List Op) : totalsInv ((initState t).run ops) :=
  totalsInv_runAux ops _ (by intro p hp; simp [initState] at hp)

theorem saveFields_qr_ok (t : Ticket) (now : Int) (p : Purchase)
    (h : p.qr_code = true → p.qr_code_data.isSome = true) :
    ((p.saveFields t now).status = .paid → (p.saveFields t now).qr_code = true) ∧
    ((p.saveFields t now).qr_code = true → (p.saveFields t now).qr_code_data.isSome = true) := by
  by_cases h1 : p.purchase_reference = "" <;>
  by_cases h2 : p.status = .paid <;>
  by_cases h3 : p.qr_code = true <;>
  by_cases h4 : p.paid_at = none <;>
    simp_all [Purchase.saveFields, Purchase.generate_qr_code]

theorem saveFields_qr_frozen (t : Ticket) (now : Int) (p : Purchase)
    (h : p.status ≠ .paid) :
    (p.saveFields t now).qr_code = p.qr_code ∧
    (p.saveFields t now).qr_code_data = p.qr_code_data := by
  by_cases h1 : p.purchase_reference = "" <;>
  by_cases h4 : p.paid_at = none <;>
    simp [Purchase.saveFields, Purchase.generate_qr_code, h1, h4, h]

theorem qrInv_applyOp (s : DBState) (op : Op) (h : qrInv s) : qrInv (s.applyOp op) := by
  have hstep : ∀ (l : List Purchase) (i : Nat) (now : Int) (p : Purchase),
      (∀ q ∈ l, (q.status = .paid → q.qr_code = true) ∧
        (q.qr_code = true → q.qr_code_data.isSome = true)) →
      (p.qr_code = true → p.qr_code_data.isSome = true) →
      ∀ q ∈ l.set i (p.saveFields s.ticket now),
        (q.status = .paid → q.qr_code = true) ∧
        (q.qr_code = true → q.qr_code_data.isSome = true) := by
    intro l i now p hl hp q hq
    rcases List.mem_or_eq_of_mem_set hq with hmem | rfl
    · exact hl q hmem
    · exact saveFields_qr_ok s.ticket now p hp
  cases op with
  | createPending id qn pm em now =>
    have hg : (s.purchases ++ [newPurchase id qn s.ticket.price pm em now])[s.purchases.length]? =
        some (newPurchase id qn s.ticket.price pm em now) := List.getElem?_concat_length _ _
    intro r hr
    simp only [DBState.applyOp, DBState.save, hg, DBState.update_ticket_quantity] at hr
    refine hstep _ _ now _ ?_ ?_ r hr
    · intro q hq
      rcases List.mem_append.mp hq with hmem | hmem
      · exact h q hmem
      · simp only [List.mem_singleton] at hmem
        subst hmem
        constructor <;> intro hx <;> simp [newPurchase] at hx
    · intro hx
      simp [newPurchase] at hx
  | confirmPayment i ref now =>
    cases hg : s.purchases[i]? with
    | none => simp only [DBState.applyOp, hg]; exact h
    | some p =>
      have hlen : i < s.purchases.length := (List.getElem?_eq_some.mp hg).1
      have hg2 : (s.purchases.set i { p with status := .paid, payment_reference := ref })[i]? =
          some { p with status := .paid, payment_reference := ref } := by
        simp [List.getElem?_set_self, hlen]
      intro r hr
      simp only [DBState.applyOp, hg, DBState.save, hg2, DBState.update_ticket_quantity] at hr
      rw [List.set_set] at hr
      refine hstep _ _ now _ (fun q hq => h q hq) ?_ r hr
      intro hx
      exact (h p (List.getElem?_mem hg)).2 (by simpa using hx)
  | failPayment i now =>
    cases hg : s.purchases[i]? with
    | none => simp only [DBState.applyOp, hg]; exact h
    | some p =>
      have hlen : i < s.purchases.length := (List.getElem?_eq_some.mp hg).1
      have hg2 : (s.purchases.set i { p with status := .cancelled })[i]? =
          some { p with status := .cancelled } := by
        simp [List.getElem?_set_self, hlen]
      intro r hr
      simp only [DBState.applyOp, hg, DBState.save, hg2, DBState.update_ticket_quantity] at hr
      rw [List.set_set] at hr
      refine hstep _ _ now _ (fun q hq => h q hq) ?_ r hr
      intro hx
      exact (h p (List.getElem?_mem hg)).2 (by simpa using hx)
  | cancelOp i now =>
    simp only [DBState.applyOp]
    cases hc : s.cancel i now with
    | error e => exact h
    | ok s1 =>
      simp only [DBState.cancel] at hc
      by_cases hcan : s.can_be_cancelled i now = true
      · rw [if_pos hcan] at hc
        cases hg : s.purchases[i]? with
        | none => rw [hg] at hc; cases hc
        | some p =>
          rw [hg] at hc
          injection hc with hc
          subst hc
          have hlen : i < s.purchases.length := (List.getElem?_eq_some.mp hg).1
          have hg2 : (s.purchases.set i { p with status := .cancelled })[i]? =
              some { p with status := .cancelled } := by
            simp [List.getElem?_set_self, hlen]
          intro r hr
          simp only [DBState.save, hg2, DBState.update_ticket_quantity] at hr
          rw [List.set_set] at hr
          refine hstep _ _ now _ (fun q hq => h q hq) ?_ r hr
          intro hx
          exact (h p (List.getElem?_mem hg)).2 (by simpa using hx)
      · rw [if_neg hcan] at hc; cases hc

theorem qrInv_runAux (ops : List Op) : ∀ s, qrInv s → qrInv (s.run ops) := by
  induction ops with
  | nil => exact fun s hs => hs
  | cons op rest ih =>
    intro s hs
    exact ih _ (qrInv_applyOp s op hs)

theorem qrInv_run (t : Ticket) (ops : List Op) : qrInv ((initState t).run ops) :=
  qrInv_runAux ops _ (by intro p hp; simp [initState] at hp)

/-- C1 counterexample: after creating a purchase, paying it and cancelling it
before the event starts, the stored purchase has status `cancelled` yet still
holds both the QR image and the QR payload — `Purchase.cancel` never clears
the credential, refuting "a purchase whose status is not paid holds no QR
credential". -/
theorem qr_credential_outlives_cancel :
    stateC1.purchases.map (fun p => (p.status, p.qr_code, p.qr_code_data.isSome)) =
      [(.cancelled, true, true)] := by decide

/-- C1 (amended): in every state reachable by lifecycle operations, a purchase
whose status is `paid` holds the QR credential (image and payload); and a save
of a purchase whose status is not `paid` neither creates nor removes a
credential, so a previously paid purchase keeps its credential after
cancellation. -/
theorem paid_purchase_has_qr_credential (t : Ticket) (ops : List Op) (p : Purchase)
    (hp : p ∈ ((initState t).run ops).purchases) (hpaid : p.status = .paid)
    (q : Purchase) (now : Int) (hq : q.status ≠ .paid) :
    (p.qr_code = true ∧ p.qr_code_data.isSome = true) ∧
    ((q.saveFields t now).qr_code = q.qr_code ∧
     (q.saveFields t now).qr_code_data = q.qr_code_data) := by
  constructor
  · have h := qrInv_run t ops p hp
    exact ⟨h.1 hpaid, h.2 (h.1 hpaid)⟩
  · exact saveFields_qr_frozen t now q hq

/-- Witness for C1's amended theorem at the concrete paid purchase `pPaidA`. -/
theorem paid_purchase_has_qr_credential_witness :
    (pPaidA ∈ statePaidA.purchases ∧ pPaidA.status = .paid ∧
     defaultPurchase.status ≠ .paid) ∧
    ((pPaidA.qr_code = true ∧ pPaidA.qr_code_data.isSome = true) ∧
     ((defaultPurchase.saveFields ticketA 0).qr_code = defaultPurchase.qr_code ∧
      (defaultPurchase.saveFields ticketA 0).qr_code_data = defaultPurchase.qr_code_data)) :=
  ⟨⟨by decide, by decide, by decide⟩,
   paid_purchase_has_qr_credential ticketA opsPaidA pPaidA (by decide) (by decide)
     defaultPurchase 0 (by decide)⟩

/-- C2 counterexample: reviewing a pending refund request with `approve` under
a successful gateway draw leaves the request `failed` with no recorded
`refund_reference`, creates no `Refund` row, and leaves the purchase `paid` —
`process_refund` reads the nonexistent `payment.payment_method` attribute, so
its success return is unreachable and the claimed completed outcome (and the
claimed `mark_refunded`, which exists nowhere) never happens. -/
theorem refund_gateway_success_still_fails :
    ((review_approve payStateA 0 "ok" true "RF-1" 500).toOption.map
       (fun s1 => (s1.requests.map (fun r => (r.status, r.refund_reference)),
                   s1.refunds.length, s1.purchase.status))) =
      some ([(.failed, "")], 0, .paid) := by decide

/-- C2 (amended): reviewing a pending refund request of a successful payment
with `approve` never completes it: for either gateway draw, `process_refund`
reports failure (its `Refund.objects.create` reads `payment.payment_method`,
a field `Payment` does not have, and the raised `AttributeError` is caught),
so the request ends `failed`, `refund_reference` and `processed_amount` stay
unrecorded, no `Refund` row is created, and the payment and the purchase
(still `paid`) are untouched. -/
theorem review_approve_never_completes (s : PaymentState) (i : Nat)
    (notes ref : String) (now : Int) (g : Bool) (r : RefundRequest)
    (hget : s.requests[i]? = some r) (hr : r.status = .pending)
    (hpay : s.payment.status = .success) :
    ((review_approve s i notes g ref now).toOption.map
       (fun s1 => (s1.requests[i]?.map
                     (fun q => (q.status, q.refund_reference, q.processed_amount)),
                   s1.refunds, s1.purchase, s1.payment))) =
      some (some (.failed, r.refund_reference, r.processed_amount),
            s.refunds, s.purchase, s.payment) := by
  have hcan : can_be_approved r s.payment = true := by
    simp [can_be_approved, PaymentRec.can_be_refunded, hr, hpay]
  have hlen : i < s.requests.length := (List.getElem?_eq_some.mp hget).1
  cases g <;>
    simp [review_approve, process_refund, PaymentRec.payment_method_attr, hget, hcan,
      Except.toOption, List.getElem?_set_self, hlen]

/-- Witness for C2's amended theorem at the concrete refund request, under the
gateway-success draw. -/
theorem review_approve_never_completes_witness :
    (payStateA.requests[0]? = some requestA ∧ requestA.status = .pending ∧
     payStateA.payment.status = .success) ∧
    ((review_approve payStateA 0 "ok" true "RF-1" 500).toOption.map
       (fun s1 => (s1.requests[0]?.map
                     (fun q => (q.status, q.refund_reference, q.processed_amount)),
                   s1.refunds, s1.purchase, s1.payment))) =
      some (some (.failed, requestA.refund_reference, requestA.processed_amount),
            payStateA.refunds, payStateA.purchase, payStateA.payment) :=
  ⟨⟨by decide, by decide, by decide⟩,
   review_approve_never_completes payStateA 0 "ok" "RF-1" 500 true requestA
     (by decide) (by decide) (by decide)⟩

/-- C3 counterexample: a paid purchase of an event that has not started, with
one recorded `TicketValidation`, is still reported cancellable and its cancel
succeeds — `can_be_cancelled` never consults the validation rows, refuting
"for a purchase with a prior TicketValidation record, cancel must fail". -/
theorem cancel_ignores_prior_validation :
    stateValA.validations.length = 1 ∧
    stateValA.can_be_cancelled 0 300 = true ∧
    ((stateValA.cancel 0 300).toOption.map (fun s1 => s1.purchases.map (fun p => p.status))) =
      some [.cancelled] := by decide

/-- C3 (amended): for a purchase in status `pending` or `paid`, `cancel`
succeeds exactly when the event's start time is strictly after `now`;
equivalently it fails with the not-cancellable error exactly when the event's
start time is at or before `now` — existing TicketValidation records play no
role. -/
theorem cancel_fails_iff_event_started (s : DBState) (i : Nat) (now : Int) (p : Purchase)
    (hget : s.purchases[i]? = some p)
    (hstatus : p.status = .pending ∨ p.status = .paid) :
    ((s.cancel i now).toOption.isSome = true ↔ now < s.ticket.event.start_datetime) := by
  constructor
  · intro h
    by_cases hcan : s.can_be_cancelled i now = true
    · rcases hstatus with h2 | h2 <;>
        simp [DBState.can_be_cancelled, hget, h2] at hcan <;> omega
    · simp [DBState.cancel, hcan, Except.toOption] at h
  · intro h
    have hcan : s.can_be_cancelled i now = true := by
      rcases hstatus with h2 | h2 <;>
        simp [DBState.can_be_cancelled, hget, h2] <;> omega
    simp [DBState.cancel, hcan, hget, Except.toOption]

/-- Witness for C3's amended theorem at the concrete paid purchase. -/
theorem cancel_fails_iff_event_started_witness :
    (statePaidA.purchases[0]? = some pPaidA ∧
     (pPaidA.status = .pending ∨ pPaidA.status = .paid)) ∧
    ((statePaidA.cancel 0 300).toOption.isSome = true ↔
      (300 : Int) < statePaidA.ticket.event.start_datetime) :=
  ⟨⟨by decide, by decide⟩,
   cancel_fails_iff_event_started statePaidA 0 300 pPaidA (by decide) (by decide)⟩

/-- C4 counterexample: at the instant `now = sale_end` the code still sells
(`can_purchase` is true) while the spec's half-open window `[sale_start,
sale_end)` requires false — the code's comparison is `now > sale_end`, making
the window closed on the right. -/
theorem sale_window_closed_counterexample :
    Ticket.can_purchase ticketA 1 40000 = true ∧
    is_purchasable_spec ticketA 1 40000 = false := by decide

/-- C4 (amended): for a ticket with both sale-window bounds set,
`can_purchase(ticket, quantity, now)` is true iff the ticket is active,
`0 < quantity ≤ remaining`, and `now` lies in the CLOSED interval
`[sale_start, sale_end]`; in particular it is still true at
`now = sale_end`. -/
theorem can_purchase_iff_closed_window (t : Ticket) (q now s e : Int)
    (hs : t.sale_start_datetime = some s) (he : t.sale_end_datetime = some e) :
    t.can_purchase q now = true ↔
      (t.is_active = true ∧ 0 < q ∧ q ≤ t.quantity_remaining ∧ s ≤ now ∧ now ≤ e) := by
  simp only [Ticket.can_purchase, Ticket.is_available_for_sale, Ticket.is_sold_out, hs, he,
    Bool.and_eq_true, decide_eq_true_eq]
  by_cases ha : t.is_active = true <;>
  by_cases hb : t.quantity_remaining = 0 <;>
  by_cases hc : now < s <;>
  by_cases hd : e < now <;>
    simp [ha, hb, hc, hd, beq_iff_eq] <;> omega

/-- Witness for C4's amended theorem at the concrete ticket `ticketA`. -/
theorem can_purchase_iff_closed_window_witness :
    (ticketA.sale_start_datetime = some 0 ∧ ticketA.sale_end_datetime = some 40000) ∧
    (ticketA.can_purchase 3 20000 = true ↔
      (ticketA.is_active = true ∧ (0 : Int) < 3 ∧ (3 : Int) ≤ ticketA.quantity_remaining ∧
       (0 : Int) ≤ 20000 ∧ (20000 : Int) ≤ 40000)) :=
  ⟨⟨by decide, by decide⟩,
   can_purchase_iff_closed_window ticketA 3 20000 0 40000 (by decide) (by decide)⟩

/-- C5: after any enabled purchase-status transition (create, confirm to paid,
fail, cancel — each of which ends in `Purchase.save` and hence in
`update_ticket_quantity`), the stored `quantity_sold` equals the sum of the
quantities of the ticket's paid purchases, and `quantity_remaining` is
`max 0 (quantity_available - quantity_sold)`. -/
theorem quantity_sold_reconciled (s : DBState) (op : Op) (h : opEnabled s op) :
    inventoryInv (s.applyOp op) := by
  cases op with
  | createPending id q pm em now =>
    apply save_inventoryInv
    simp [DBState.applyOp, List.getElem?_concat_length]
  | confirmPayment i ref now =>
    simp only [opEnabled] at h
    cases hg : s.purchases[i]? with
    | none => rw [hg] at h; simp at h
    | some p =>
      have hlen : i < s.purchases.length := (List.getElem?_eq_some.mp hg).1
      simp only [DBState.applyOp, hg]
      apply save_inventoryInv
      simp [List.getElem?_set_self, hlen]
  | failPayment i now =>
    simp only [opEnabled] at h
    cases hg : s.purchases[i]? with
    | none => rw [hg] at h; simp at h
    | some p =>
      have hlen : i < s.purchases.length := (List.getElem?_eq_some.mp hg).1
      simp only [DBState.applyOp, hg]
      apply save_inventoryInv
      simp [List.getElem?_set_self, hlen]
  | cancelOp i now =>
    simp only [opEnabled] at h
    cases hg : s.purchases[i]? with
    | none => simp [DBState.can_be_cancelled, hg] at h
    | some p =>
      have hlen : i < s.purchases.length := (List.getElem?_eq_some.mp hg).1
      have hc : s.cancel i now =
          .ok (({ s with
            purchases := s.purchases.set i { p with status := .cancelled } }).save i now) := by
        simp [DBState.cancel, h, hg]
      simp only [DBState.applyOp, hc]
      apply save_inventoryInv
      simp [List.getElem?_set_self, hlen]

/-- Witness for C5 at a concrete cancellation of a paid purchase. -/
theorem quantity_sold_reconciled_witness :
    opEnabled statePaidA (.cancelOp 0 300) ∧
    inventoryInv (statePaidA.applyOp (.cancelOp 0 300)) :=
  ⟨by show statePaidA.can_be_cancelled 0 300 = true; decide,
   quantity_sold_reconciled statePaidA (.cancelOp 0 300)
     (by show statePaidA.can_be_cancelled 0 300 = true; decide)⟩

/-- C6: in every reachable state, every stored purchase satisfies
`total_amount = unit_price * quantity` exactly (integer-cent arithmetic, no
rounding); and every save recomputes `total_amount` from `unit_price` and
`quantity`, so a caller-supplied `total_amount` never survives a save. -/
theorem total_amount_exact (t : Ticket) (ops : List Op) (p : Purchase)
    (hp : p ∈ ((initState t).run ops).purchases) (q : Purchase) (now : Int) :
    p.total_amount = p.unit_price * p.quantity ∧
    (q.saveFields t now).total_amount =
      (q.saveFields t now).unit_price * (q.saveFields t now).quantity :=
  ⟨totalsInv_run t ops p hp, saveFields_total_eq t now q⟩

/-- Witness for C6 at the concrete paid purchase. -/
theorem total_amount_exact_witness :
    pPaidA ∈ statePaidA.purchases ∧
    (pPaidA.total_amount = pPaidA.unit_price * pPaidA.quantity ∧
     (defaultPurchase.saveFields ticketA 0).total_amount =
       (defaultPurchase.saveFields ticketA 0).unit_price *
         (defaultPurchase.saveFields ticketA 0).quantity) :=
  ⟨by decide, total_amount_exact ticketA opsPaidA pPaidA (by decide) defaultPurchase 0⟩

/-- C7: for a paid purchase inside its event window, if some validation of the
same purchase lies within the last hour then `validate_qr` answers with the
duplicate warning carrying that prior record and appends nothing; otherwise it
answers accepted and appends exactly one new `TicketValidation` row. -/
theorem validate_qr_duplicate_window (s : DBState) (qd : QRPayload) (vb : Nat)
    (location notes : String) (now : Int) (p : Purchase)
    (hfind : s.purchases.find? (fun q => q.id == qd.purchase_id) = some p)
    (hpaid : p.status = .paid)
    (hend : ¬ s.ticket.event.end_datetime < now)
    (hstart : ¬ dateOf now < dateOf s.ticket.event.start_datetime) :
    (∀ prior,
       s.validations.find?
           (fun v => v.purchase_id == p.id && decide (now - 3600 ≤ v.validation_datetime)) =
         some prior →
       s.validate_qr (some qd) vb location notes now = (.alreadyValidated prior, s)) ∧
    (s.validations.find?
         (fun v => v.purchase_id == p.id && decide (now - 3600 ≤ v.validation_datetime)) =
       none →
     s.validate_qr (some qd) vb location notes now =
       (.validated
          { purchase_id := p.id, validated_by := vb, validation_datetime := now,
            location := location, notes := notes },
        { s with validations := s.validations ++
            [{ purchase_id := p.id, validated_by := vb, validation_datetime := now,
               location := location, notes := notes }] })) := by
  have hif1 : (p.status != PurchaseStatus.paid) = false := by simp [hpaid]
  have hif2 : decide (s.ticket.event.end_datetime < now) = false := by simp [hend]
  have hif3 : decide (dateOf now < dateOf s.ticket.event.start_datetime) = false := by
    simp [hstart]
  constructor
  · intro prior hprior
    simp only [DBState.validate_qr, hfind, hif1, hif2, hif3, Bool.false_eq_true, if_false,
      hprior]
  · intro hnone
    simp only [DBState.validate_qr, hfind, hif1, hif2, hif3, Bool.false_eq_true, if_false,
      hnone]

/-- Witness for C7 at the concrete paid purchase with no prior validation. -/
theorem validate_qr_duplicate_window_witness :
    (statePaidA.purchases.find? (fun q => q.id == qdA.purchase_id) = some pPaidA ∧
     pPaidA.status = .paid ∧
     ¬ statePaidA.ticket.event.end_datetime < 250 ∧
     ¬ dateOf 250 < dateOf statePaidA.ticket.event.start_datetime) ∧
    (statePaidA.validations.find?
         (fun v => v.purchase_id == pPaidA.id &&
           decide ((250 : Int) - 3600 ≤ v.validation_datetime)) = none →
     statePaidA.validate_qr (some qdA) 7 "gate" "" 250 =
       (.validated
          { purchase_id := pPaidA.id, validated_by := 7, validation_datetime := 250,
            location := "gate", notes := "" },
        { statePaidA with validations := statePaidA.validations ++
            [{ purchase_id := pPaidA.id, validated_by := 7, validation_datetime := 250,
               location := "gate", notes := "" }] })) :=
  ⟨⟨by decide, by decide, by decide, by decide⟩,
   (validate_qr_duplicate_window statePaidA qdA 7 "gate" "" 250 pPaidA
      (by decide) (by decide) (by decide) (by decide)).2⟩

/-- C8: refund-request creation (for a positive requested amount) fails with
the not-refundable error exactly when the payment is not successful; for a
successful payment it fails with the amount-exceeds error exactly when the
amount exceeds the payment's amount; within those bounds it fails with the
duplicate error exactly when some outstanding (pending, approved or
processing) request exists; and on success exactly one new pending request is
appended — the error kinds are distinct constructors and no request row is
created on any failure. -/
theorem refund_request_validation_cases (s : PaymentState) (amount : Int) (reason : String)
    (hpos : 0 < amount) :
    (refund_request_create s amount reason = .error .notRefundable ↔
       ¬ s.payment.status = .success) ∧
    (s.payment.status = .success →
       (refund_request_create s amount reason = .error .amountExceedsPayment ↔
          s.payment.amount < amount)) ∧
    (s.payment.status = .success → amount ≤ s.payment.amount →
       (refund_request_create s amount reason = .error .duplicateRequest ↔
          s.requests.any (fun r => r.isOutstanding) = true)) ∧
    (∀ s1, refund_request_create s amount reason = .ok s1 →
       s1.requests = s.requests ++ [newRefundRequest amount reason]) := by
  have hnp : ¬ amount ≤ 0 := by omega
  by_cases hsucc : s.payment.status = .success <;>
  by_cases hexceed : s.payment.amount < amount <;>
  by_cases hdup : s.requests.any (fun r => r.isOutstanding) = true <;>
    simp [refund_request_create, refund_request_validate, PaymentRec.can_be_refunded,
      newRefundRequest, hnp, hsucc, hexceed, hdup]

/-- Witness for C8 at the concrete payment state. -/
theorem refund_request_validation_cases_witness :
    (0 : Int) < 400 ∧
    (refund_request_create payStateA 400 "late" = .error .notRefundable ↔
       ¬ payStateA.payment.status = .success) :=
  ⟨by decide, (refund_request_validation_cases payStateA 400 "late" (by decide)).1⟩

/-- C9: saving a paid purchase that already carries the QR image is a no-op on
the credential — `generate_qr_code` is skipped, the stored payload
`qr_code_data` is unchanged and no second credential is produced. -/
theorem qr_issuance_idempotent (t : Ticket) (now : Int) (p : Purchase)
    (hpaid : p.status = .paid) (hqr : p.qr_code = true) :
    (p.saveFields t now).qr_code_data = p.qr_code_data ∧
    (p.saveFields t now).qr_code = p.qr_code := by
  by_cases h1 : p.purchase_reference = "" <;>
  by_cases h4 : p.paid_at = none <;>
    simp [Purchase.saveFields, Purchase.generate_qr_code, hpaid, hqr, h1, h4]

/-- Witness for C9 at the concrete paid purchase. -/
theorem qr_issuance_idempotent_witness :
    (pPaidA.status = .paid ∧ pPaidA.qr_code = true) ∧
    ((pPaidA.saveFields ticketA 999).qr_code_data = pPaidA.qr_code_data ∧
     (pPaidA.saveFields ticketA 999).qr_code = pPaidA.qr_code) :=
  ⟨⟨by decide, by decide⟩, qr_issuance_idempotent ticketA 999 pPaidA (by decide) (by decide)⟩

/-- C10: reviewing the only outstanding refund request with `approve` while
the gateway fails leaves the payment `success` and the request `failed`;
since the duplicate check only blocks pending, approved or processing
requests, a subsequent refund request for the same payment (with a valid
amount) is accepted. -/
theorem refund_reopenable_after_failed_attempt (s : PaymentState) (i : Nat)
    (notes ref reason2 : String) (now : Int) (amount2 : Int) (r : RefundRequest)
    (hget : s.requests[i]? = some r) (hr : r.status = .pending)
    (hpay : s.payment.status = .success)
    (hothers : ∀ j q, j ≠ i → s.requests[j]? = some q → q.isOutstanding = false)
    (hpos : 0 < amount2) (hle : amount2 ≤ s.payment.amount) :
    ∃ s1, review_approve s i notes false ref now = .ok s1 ∧
      s1.payment.status = .success ∧
      (s1.requests[i]?.map (fun q => q.status)) = some .failed ∧
      refund_request_create s1 amount2 reason2 =
        .ok { s1 with requests := s1.requests ++ [newRefundRequest amount2 reason2] } := by
  have hcan : can_be_approved r s.payment = true := by
    simp [can_be_approved, PaymentRec.can_be_refunded, hr, hpay]
  have hlen : i < s.requests.length := (List.getElem?_eq_some.mp hget).1
  set r2 : RefundRequest :=
    { r with status := .failed,
             admin_notes := notes ++ "\nRefund processing failed: " ++
               "Refund processing failed. Please try again." } with hr2
  have hok : review_approve s i notes false ref now =
      .ok { s with requests := s.requests.set i r2 } := by
    simp [review_approve, process_refund, hget, hcan, hr2]
  refine ⟨{ s with requests := s.requests.set i r2 }, hok, hpay, ?_, ?_⟩
  · simp [List.getElem?_set_self, hlen, hr2]
  · have hnone : (s.requests.set i r2).any (fun q => q.isOutstanding) = false := by
      rw [Bool.eq_false_iff]
      intro hany
      rcases List.any_eq_true.mp hany with ⟨q, hq, hqo⟩
      rcases List.mem_iff_getElem?.mp hq with ⟨j, hj⟩
      by_cases hji : j = i
      · subst hji
        rw [List.getElem?_set_self hlen] at hj
        injection hj with hj
        subst hj
        simp [RefundRequest.isOutstanding, hr2] at hqo
      · rw [List.getElem?_set_ne (fun h => hji h.symm)] at hj
        rw [hothers j q hji hj] at hqo
        cases hqo
    have hns : ¬ amount2 ≤ 0 := by omega
    have hne : ¬ s.payment.amount < amount2 := by omega
    simp [refund_request_create, refund_request_validate, PaymentRec.can_be_refunded,
      hpay, hns, hne, hnone, newRefundRequest]

/-- Witness for C10 at the concrete payment state with one pending request. -/
theorem refund_reopenable_after_failed_attempt_witness :
    (payStateA.requests[0]? = some requestA ∧ requestA.status = .pending ∧
     payStateA.payment.status = .success ∧
     (∀ j q, j ≠ 0 → payStateA.requests[j]? = some q → q.isOutstanding = false) ∧
     (0 : Int) < 300 ∧ (300 : Int) ≤ payStateA.payment.amount) ∧
    (∃ s1, review_approve payStateA 0 "deny" false "RF-2" 600 = .ok s1 ∧
      s1.payment.status = .success ∧
      (s1.requests[0]?.map (fun q => q.status)) = some .failed ∧
      refund_request_create s1 300 "retry" =
        .ok { s1 with requests := s1.requests ++ [newRefundRequest 300 "retry"] }) :=
  ⟨⟨by decide, by decide, by decide,
    by
      intro j q hj hq
      cases j with
      | zero => exact absurd rfl hj
      | succ n => simp [payStateA] at hq,
    by decide, by decide⟩,
   refund_reopenable_after_failed_attempt payStateA 0 "deny" "RF-2" "retry"
     600 300 requestA (by decide) (by decide) (by decide)
     (by
       intro j q hj hq
       cases j with
       | zero => exact absurd rfl hj
       | succ n => simp [payStateA] at hq)
     (by decide) (by decide)⟩

end EventGo
